import Mathlib

/-!
Verification of buildly-core serializer and webhook logic.

Shallow embedding of the relevant parts of `workflow/serializers.py` and
`webhook/utils.py`.  Python dicts with string keys and boolean values are
modelled as association lists (`PyDict`) together with a first-match lookup
(`pyLookup`); Python dict equality is lookup extensionality (`dictEquiv`).
Raising `ValidationError` is modelled with `Except`.
-/

namespace Buildly

/-- A Python dict with string keys and boolean values, as an association
list.  A real Python dict has no duplicate keys; `pyLookup` is first-match,
which agrees with dict access on duplicate-free lists. -/
abbrev PyDict := List (String × Bool)

/-- Python `data[key]` as an optional first-match lookup. -/
def pyLookup : PyDict → String → Option Bool
  | [], _ => none
  | (k, v) :: rest, key => if k = key then some v else pyLookup rest key

/-- Python `data.keys()`. -/
def dictKeys (d : PyDict) : List String := d.map Prod.fst

/-- Python dict equality: two dicts are equal iff they agree on every key
(order of insertion is irrelevant). -/
def dictEquiv (d₁ d₂ : PyDict) : Prop := ∀ k, pyLookup d₁ k = pyLookup d₂ k

/-- The class attribute `PermissionsField._keys = ('create', 'read', 'update', 'delete')`. -/
def permKeys : List String := ["create", "read", "update", "delete"]

/-- The four digits of `'\x7b0:04b\x7d'.format(v)` for `v < 16`: the binary
digits of `v`, most significant first.  (The caller always clamps to `v < 16`,
where the format string produces exactly four digits.) -/
def binDigits4 (v : Nat) : List Nat := [v / 8 % 2, v / 4 % 2, v / 2 % 2, v % 2]

/-- `PermissionsField.to_representation` from `workflow/serializers.py`:
clamp the value to 15, format as four binary digits, and zip the keys with
`bool(int(digit))` for each digit. -/
def to_representation (value : Nat) : PyDict :=
  let clamped := if value < 16 then value else 15
  List.zip permKeys ((binDigits4 clamped).map (fun d => decide (d ≠ 0)))

/-- Python `int(s, 2)` applied to the join of `str(int(b))` for each bit `b`,
i.e. the value of a big-endian bit list. -/
def bitsVal (bs : List Bool) : Nat :=
  bs.foldl (fun acc b => 2 * acc + (if b then 1 else 0)) 0

/-- The error message raised by `PermissionsField.to_internal_value`. -/
def permKeysErrMsg : String := "Permissions field: incorrect keys format"

/-- `PermissionsField.to_internal_value` from `workflow/serializers.py`,
after the parent `DictField` has coerced the values to booleans: reject the
dict unless its key set equals `set(self._keys)`, otherwise join the bits in
key order and parse them in base 2. -/
def to_internal_value (data : PyDict) : Except String Nat :=
  if (dictKeys data).toFinset = permKeys.toFinset then
    Except.ok (bitsVal (permKeys.map (fun k => (pyLookup data k).getD false)))
  else
    Except.error permKeysErrMsg

lemma pyLookup_eq_none (d : PyDict) (k : String) (h : k ∉ dictKeys d) :
    pyLookup d k = none := by
  induction d with
  | nil => rfl
  | cons hd tl ih =>
    obtain ⟨k', v⟩ := hd
    simp only [dictKeys, List.map_cons, List.mem_cons] at h
    push_neg at h
    have hne : k' ≠ k := fun hh => h.1 hh.symm
    simpa [pyLookup, hne] using ih h.2

lemma pyLookup_isSome (d : PyDict) (k : String) (h : k ∈ dictKeys d) :
    ∃ v, pyLookup d k = some v := by
  induction d with
  | nil => simp [dictKeys] at h
  | cons hd tl ih =>
    obtain ⟨k', v⟩ := hd
    by_cases hkk : k' = k
    · exact ⟨v, by simp [pyLookup, hkk]⟩
    · simp only [dictKeys, List.map_cons, List.mem_cons] at h
      rcases h with h | h
      · exact absurd h.symm hkk
      · simpa [pyLookup, hkk] using ih h

lemma roundtrip_core (a b c e : Bool) (k : String) :
    pyLookup (to_representation (bitsVal [a, b, c, e])) k =
    pyLookup [("create", a), ("read", b), ("update", c), ("delete", e)] k := by
  cases a <;> cases b <;> cases c <;> cases e <;> rfl

/-- C1: Encoding and decoding of `PermissionsField` are mutually inverse on
valid inputs: a dict whose key set is exactly the four permission keys
decodes to an integer that re-encodes to an equal dict, and every integer
`n < 16` encodes to a dict that decodes back to `n`. -/
theorem permissions_roundtrip (d : PyDict)
    (hk : (dictKeys d).toFinset = permKeys.toFinset) (n : Nat) (hn : n < 16) :
    (∃ m, to_internal_value d = Except.ok m ∧ dictEquiv (to_representation m) d) ∧
    to_internal_value (to_representation n) = Except.ok n := by
  constructor
  · have hmem : ∀ k, k ∈ dictKeys d ↔ k ∈ permKeys := by
      intro k
      rw [← List.mem_toFinset, hk, List.mem_toFinset]
    obtain ⟨a, ha⟩ := pyLookup_isSome d "create" ((hmem _).mpr (by simp [permKeys]))
    obtain ⟨b, hb⟩ := pyLookup_isSome d "read" ((hmem _).mpr (by simp [permKeys]))
    obtain ⟨c, hc⟩ := pyLookup_isSome d "update" ((hmem _).mpr (by simp [permKeys]))
    obtain ⟨e, he⟩ := pyLookup_isSome d "delete" ((hmem _).mpr (by simp [permKeys]))
    have hmap : permKeys.map (fun k => (pyLookup d k).getD false) = [a, b, c, e] := by
      simp [permKeys, ha, hb, hc, he]
    refine ⟨_, by rw [to_internal_value, if_pos hk], ?_⟩
    intro k
    rw [hmap, roundtrip_core]
    simp only [pyLookup]
    by_cases h1 : ("create" : String) = k
    · subst h1; rw [if_pos rfl, ha]
    rw [if_neg h1]
    by_cases h2 : ("read" : String) = k
    · subst h2; rw [if_pos rfl, hb]
    rw [if_neg h2]
    by_cases h3 : ("update" : String) = k
    · subst h3; rw [if_pos rfl, hc]
    rw [if_neg h3]
    by_cases h4 : ("delete" : String) = k
    · subst h4; rw [if_pos rfl, he]
    rw [if_neg h4]
    rw [pyLookup_eq_none d k]
    intro hkd
    have := (hmem k).mp hkd
    simp only [permKeys, List.mem_cons, List.not_mem_nil, or_false] at this
    rcases this with h | h | h | h
    exacts [h1 h.symm, h2 h.symm, h3 h.symm, h4 h.symm]
  · interval_cases n <;> rfl

/-- C1 witness: a concrete dict (listed in scrambled order, as Python dict
equality ignores order) round-trips, and 9 decodes back to 9. -/
theorem permissions_roundtrip_witness :
    (∃ m, to_internal_value
        [("delete", true), ("create", true), ("read", false), ("update", false)] =
          Except.ok m ∧
        dictEquiv (to_representation m)
          [("delete", true), ("create", true), ("read", false), ("update", false)]) ∧
    to_internal_value (to_representation 9) = Except.ok 9 :=
  permissions_roundtrip
    [("delete", true), ("create", true), ("read", false), ("update", false)]
    (by decide) 9 (by decide)

/-- C2: For `n < 16`, `to_representation n` maps the keys create, read,
update, delete (most-significant bit first) to the four binary digits of `n`
as booleans; in particular `to_representation 9` is create and delete true,
read and update false. -/
theorem to_representation_binary (n : Nat) (hn : n < 16) :
    to_representation n =
      [("create", n.testBit 3), ("read", n.testBit 2),
       ("update", n.testBit 1), ("delete", n.testBit 0)] ∧
    to_representation 9 =
      [("create", true), ("read", false), ("update", false), ("delete", true)] := by
  refine ⟨?_, rfl⟩
  interval_cases n <;> rfl

/-- C2 witness: the theorem instantiated at 9. -/
theorem to_representation_binary_witness :
    to_representation 9 =
      [("create", Nat.testBit 9 3), ("read", Nat.testBit 9 2),
       ("update", Nat.testBit 9 1), ("delete", Nat.testBit 9 0)] ∧
    to_representation 9 =
      [("create", true), ("read", false), ("update", false), ("delete", true)] :=
  to_representation_binary 9 (by decide)

/-- C3: `to_internal_value` (on a dict whose values the parent field has
already coerced to booleans) raises the ValidationError exactly when the key
set of the input differs from the four permission keys, and returns an
integer without error when the key set matches. -/
theorem to_internal_value_error_iff (d : PyDict) :
    ((dictKeys d).toFinset = permKeys.toFinset →
      ∃ n, to_internal_value d = Except.ok n) ∧
    ((dictKeys d).toFinset ≠ permKeys.toFinset →
      to_internal_value d = Except.error permKeysErrMsg) := by
  constructor
  · intro h
    exact ⟨_, by rw [to_internal_value, if_pos h]⟩
  · intro h
    rw [to_internal_value, if_neg h]

/-- C3 witness: a dict with the right keys decodes without error; a dict
with a missing key is rejected with the fixed message. -/
theorem to_internal_value_error_iff_witness :
    (∃ n, to_internal_value
        [("create", true), ("read", true), ("update", true), ("delete", true)] =
        Except.ok n) ∧
    to_internal_value [("create", true)] = Except.error permKeysErrMsg :=
  ⟨(to_internal_value_error_iff
      [("create", true), ("read", true), ("update", true), ("delete", true)]).1
      (by decide),
   (to_internal_value_error_iff [("create", true)]).2 (by decide)⟩

/-- C9: For `n ≥ 16`, `to_representation` clamps to 15 and returns the
all-true dict; hence 15 and 16 have equal representations (no injectivity at
or above 15) and decoding the representation of 16 does not return 16. -/
theorem to_representation_clamp (n : Nat) (h : 16 ≤ n) :
    to_representation n =
      [("create", true), ("read", true), ("update", true), ("delete", true)] ∧
    to_representation 15 = to_representation 16 ∧
    to_internal_value (to_representation 16) ≠ Except.ok 16 := by
  refine ⟨?_, rfl, ?_⟩
  · have h' : ¬n < 16 := Nat.not_lt.mpr h
    simp [to_representation, h', binDigits4, permKeys]
  · have h15 : to_internal_value (to_representation 16) = Except.ok 15 := rfl
    rw [h15]
    intro hc
    exact absurd (Except.ok.inj hc) (by decide)

/-- C9 witness: the theorem instantiated at 16. -/
theorem to_representation_clamp_witness :
    to_representation 16 =
      [("create", true), ("read", true), ("update", true), ("delete", true)] ∧
    to_representation 15 = to_representation 16 ∧
    to_internal_value (to_representation 16) ≠ Except.ok 16 :=
  to_representation_clamp 16 (by decide)

/-- Result of `jwt.decode(value, settings.SECRET_KEY, algorithms='HS256')` as
it is consumed by `validate_invitation_token`: either a decoded payload (from
which the serializer reads the `email` claim), a `jwt.DecodeError`, or a
`jwt.ExpiredSignatureError`. -/
inductive JwtResult where
  | payload (email : String)
  | decodeError
  | expiredSignature
deriving DecidableEq

/-- Environment of `CoreUserSerializer.validate_invitation_token`: the JWT
decoder bound to the application secret, the ORM query
`User.objects.filter(email=...).exists()`, and `self.initial_data['email']`. -/
structure InvitationEnv where
  jwtDecode : String → JwtResult
  emailExists : String → Bool
  submittedEmail : String

/-- The message of the ValidationError for an invalid invitation token. -/
def tokenNotValidMsg : String := "Token is not valid."

/-- The message of the ValidationError for an expired invitation token. -/
def tokenExpiredMsg : String := "Token is expired."

/-- `CoreUserSerializer.validate_invitation_token` from
`workflow/serializers.py`: decode the JWT; if a user with the decoded email
exists or the decoded email differs from the submitted one, the token is not
valid; a `DecodeError` means not valid, an `ExpiredSignatureError` means
expired; otherwise the token value is returned unchanged. -/
def validate_invitation_token (env : InvitationEnv) (value : String) :
    Except String String :=
  match env.jwtDecode value with
  | .payload email =>
      if env.emailExists email || decide (email ≠ env.submittedEmail) then
        Except.error tokenNotValidMsg
      else
        Except.ok value
  | .decodeError => Except.error tokenNotValidMsg
  | .expiredSignature => Except.error tokenExpiredMsg

/-- C4: `validate_invitation_token` raises 'Token is not valid.' when the JWT
fails to decode, when a user with the decoded email exists, or when the
decoded email differs from the submitted email; raises 'Token is expired.'
when the signature is expired; and otherwise returns the value unchanged. -/
theorem validate_invitation_token_cases (env : InvitationEnv) (value : String) :
    (env.jwtDecode value = JwtResult.decodeError →
      validate_invitation_token env value = Except.error tokenNotValidMsg) ∧
    (env.jwtDecode value = JwtResult.expiredSignature →
      validate_invitation_token env value = Except.error tokenExpiredMsg) ∧
    (∀ email, env.jwtDecode value = JwtResult.payload email →
      env.emailExists email = true →
      validate_invitation_token env value = Except.error tokenNotValidMsg) ∧
    (∀ email, env.jwtDecode value = JwtResult.payload email →
      email ≠ env.submittedEmail →
      validate_invitation_token env value = Except.error tokenNotValidMsg) ∧
    (∀ email, env.jwtDecode value = JwtResult.payload email →
      env.emailExists email = false → email = env.submittedEmail →
      validate_invitation_token env value = Except.ok value) := by
  refine ⟨?_, ?_, ?_, ?_, ?_⟩
  · intro h
    rw [validate_invitation_token, h]
  · intro h
    rw [validate_invitation_token, h]
  · intro email h hex
    rw [validate_invitation_token, h]
    simp [hex]
  · intro email h hne
    rw [validate_invitation_token, h]
    simp [hne]
  · intro email h hex heq
    subst heq
    rw [validate_invitation_token, h]
    simp [hex]

/-- C4 witness: a concrete decoder under which a fresh matching token is
accepted, a foreign token, an undecodable token and an expired token are
rejected with the two fixed messages. -/
theorem validate_invitation_token_witness :
    validate_invitation_token
        ⟨fun s =>
          if s = "tok-match" then JwtResult.payload "new@example.org"
          else if s = "tok-other" then JwtResult.payload "other@example.org"
          else if s = "tok-exp" then JwtResult.expiredSignature
          else JwtResult.decodeError,
         fun _ => false, "new@example.org"⟩ "tok-match" =
      Except.ok "tok-match" :=
  ((validate_invitation_token_cases
      ⟨fun s =>
        if s = "tok-match" then JwtResult.payload "new@example.org"
        else if s = "tok-other" then JwtResult.payload "other@example.org"
        else if s = "tok-exp" then JwtResult.expiredSignature
        else JwtResult.decodeError,
       fun _ => false, "new@example.org"⟩ "tok-match").2.2.2.2)
    "new@example.org" (by decide) rfl rfl

/-- The fixed URL assigned to every hook just before delivery in
`webhook/utils.py`. -/
def webhookTargetURL : String := "http://productsservice:8080/webhook/"

/-- The subset of `rest_hooks.models.Hook` that `find_and_fire_hook` reads:
the registered event name and the stored target URL. -/
structure Hook where
  event : String
  target : String

/-- `hook.deliver_hook(instance)`: an HTTP POST of the instance payload to
`hook.target`, recorded as the pair (URL, payload). -/
def deliver_hook {α : Type} (h : Hook) (inst : α) : String × α := (h.target, inst)

/-- The message of the exception raised for an unregistered event name. -/
def hookEventsErrMsg (event_name : String) : String :=
  "\"" ++ event_name ++ "\" does not exist in `settings.HOOK_EVENTS`."

/-- `find_and_fire_hook` from `webhook/utils.py`: raise unless the event name
is a key of `settings.HOOK_EVENTS`; otherwise filter the hooks on
`event=event_name`, overwrite each hook's target with the fixed URL, and
deliver the instance through each. -/
def find_and_fire_hook {α : Type} (hookEvents : List String) (hooks : List Hook)
    (event_name : String) (inst : α) : Except String (List (String × α)) :=
  if event_name ∈ hookEvents then
    Except.ok ((hooks.filter (fun h => h.event == event_name)).map
      (fun h => deliver_hook ⟨h.event, webhookTargetURL⟩ inst))
  else
    Except.error (hookEventsErrMsg event_name)

/-- C5: `find_and_fire_hook` raises exactly when the event name is not a key
of the configured `HOOK_EVENTS`; for a registered event it raises nothing and
proceeds to deliver. -/
theorem find_and_fire_hook_unknown_event {α : Type} (hookEvents : List String)
    (hooks : List Hook) (event_name : String) (inst : α) :
    (event_name ∉ hookEvents →
      find_and_fire_hook hookEvents hooks event_name inst =
        Except.error (hookEventsErrMsg event_name)) ∧
    (event_name ∈ hookEvents →
      ∃ ds, find_and_fire_hook hookEvents hooks event_name inst = Except.ok ds) := by
  constructor
  · intro h
    rw [find_and_fire_hook, if_neg h]
  · intro h
    exact ⟨_, by rw [find_and_fire_hook, if_pos h]⟩

/-- C5 witness: with a single registered event, an unknown name raises the
configuration error and the registered name delivers. -/
theorem find_and_fire_hook_unknown_event_witness :
    find_and_fire_hook ["org.created"] [⟨"org.created", "http://stored/"⟩]
        "org.deleted" (0 : Nat) =
      Except.error (hookEventsErrMsg "org.deleted") ∧
    ∃ ds, find_and_fire_hook ["org.created"] [⟨"org.created", "http://stored/"⟩]
        "org.created" (0 : Nat) = Except.ok ds :=
  ⟨(find_and_fire_hook_unknown_event ["org.created"]
      [⟨"org.created", "http://stored/"⟩] "org.deleted" 0).1 (by decide),
   (find_and_fire_hook_unknown_event ["org.created"]
      [⟨"org.created", "http://stored/"⟩] "org.created" 0).2 (by decide)⟩

/-- C6: For a registered event, `find_and_fire_hook` produces one delivery
per hook whose event equals the event name, and every delivery is a POST to
the fixed URL `http://productsservice:8080/webhook/`, regardless of the
target stored on the hook. -/
theorem find_and_fire_hook_deliveries {α : Type} (hookEvents : List String)
    (hooks : List Hook) (event_name : String) (inst : α)
    (hmem : event_name ∈ hookEvents) :
    ∃ ds, find_and_fire_hook hookEvents hooks event_name inst = Except.ok ds ∧
      ds.length = (hooks.filter (fun h => h.event == event_name)).length ∧
      ∀ p ∈ ds, p = (webhookTargetURL, inst) := by
  refine ⟨_, by rw [find_and_fire_hook, if_pos hmem], List.length_map _ _, ?_⟩
  intro p hp
  obtain ⟨h, _, rfl⟩ := List.mem_map.mp hp
  rfl

/-- C6 witness: two hooks match the fired event (one of them with a foreign
stored target), a third does not; both deliveries go to the fixed URL. -/
theorem find_and_fire_hook_deliveries_witness :
    ∃ ds, find_and_fire_hook ["org.created"]
        [⟨"org.created", "http://stored-a/"⟩, ⟨"other.event", "http://stored-b/"⟩,
         ⟨"org.created", "http://stored-c/"⟩] "org.created" (7 : Nat) =
        Except.ok ds ∧
      ds.length =
        (([⟨"org.created", "http://stored-a/"⟩, ⟨"other.event", "http://stored-b/"⟩,
           ⟨"org.created", "http://stored-c/"⟩] : List Hook).filter
          (fun h => h.event == "org.created")).length ∧
      ∀ p ∈ ds, p = (webhookTargetURL, 7) :=
  find_and_fire_hook_deliveries ["org.created"]
    [⟨"org.created", "http://stored-a/"⟩, ⟨"other.event", "http://stored-b/"⟩,
     ⟨"org.created", "http://stored-c/"⟩] "org.created" 7 (by decide)

/-- A Django ValidationError as raised by the reset-password serializers:
either keyed by a field name (`\x7b'uid': ['Invalid value']\x7d`) or a plain
message. -/
inductive VErr where
  | keyed (key : String) (msg : String)
  | plain (msg : String)
deriving DecidableEq

/-- Environment of `CoreUserResetPasswordCheckSerializer.validate`:
`force_text(urlsafe_base64_decode(...))` (none models the caught TypeError,
ValueError and OverflowError), `User.objects.get(pk=...)` (none models
`User.DoesNotExist`; users are identified by a numeric id), and
`default_token_generator.check_token(user, token)`. -/
structure ResetEnv where
  decodeUid : String → Option String
  userByPk : String → Option Nat
  checkToken : Nat → String → Bool

/-- `CoreUserResetPasswordCheckSerializer.validate` from
`workflow/serializers.py`: decode the uid and look the user up, mapping any
of the caught exceptions to a ValidationError keyed 'uid'; then check the
reset token, mapping failure to a ValidationError keyed 'token'; otherwise
return the attrs (and the resolved user, stored as `self.user`). -/
def resetPasswordCheckValidate (env : ResetEnv) (uid token : String) :
    Except VErr ((String × String) × Nat) :=
  match (env.decodeUid uid).bind env.userByPk with
  | none => Except.error (VErr.keyed "uid" "Invalid value")
  | some user =>
      if env.checkToken user token then Except.ok ((uid, token), user)
      else Except.error (VErr.keyed "token" "Invalid value")

/-- C7: the check serializer rejects with a 'uid'-keyed error when the uid
does not decode to the primary key of an existing user, rejects with a
'token'-keyed error when the token check fails for the resolved user, and
otherwise returns the attrs unchanged. -/
theorem reset_password_check_cases (env : ResetEnv) (uid token : String) :
    ((env.decodeUid uid).bind env.userByPk = none →
      resetPasswordCheckValidate env uid token =
        Except.error (VErr.keyed "uid" "Invalid value")) ∧
    (∀ u, (env.decodeUid uid).bind env.userByPk = some u →
      env.checkToken u token = false →
      resetPasswordCheckValidate env uid token =
        Except.error (VErr.keyed "token" "Invalid value")) ∧
    (∀ u, (env.decodeUid uid).bind env.userByPk = some u →
      env.checkToken u token = true →
      resetPasswordCheckValidate env uid token = Except.ok ((uid, token), u)) := by
  refine ⟨?_, ?_, ?_⟩
  · intro h
    rw [resetPasswordCheckValidate, h]
  · intro u h hc
    rw [resetPasswordCheckValidate, h]
    simp [hc]
  · intro u h hc
    rw [resetPasswordCheckValidate, h]
    simp [hc]

/-- C7 witness: a concrete environment in which the valid uid/token pair is
returned unchanged, a non-decoding uid is keyed 'uid', and a wrong token is
keyed 'token'. -/
theorem reset_password_check_witness :
    resetPasswordCheckValidate
        ⟨fun s => if s = "MQ" then some "1" else none,
         fun s => if s = "1" then some 1 else none,
         fun u t => decide (u = 1) && decide (t = "good-token")⟩ "MQ" "good-token" =
      Except.ok (("MQ", "good-token"), 1) ∧
    resetPasswordCheckValidate
        ⟨fun s => if s = "MQ" then some "1" else none,
         fun s => if s = "1" then some 1 else none,
         fun u t => decide (u = 1) && decide (t = "good-token")⟩ "###" "good-token" =
      Except.error (VErr.keyed "uid" "Invalid value") ∧
    resetPasswordCheckValidate
        ⟨fun s => if s = "MQ" then some "1" else none,
         fun s => if s = "1" then some 1 else none,
         fun u t => decide (u = 1) && decide (t = "good-token")⟩ "MQ" "bad-token" =
      Except.error (VErr.keyed "token" "Invalid value") :=
  ⟨(reset_password_check_cases _ "MQ" "good-token").2.2 1 rfl (by decide),
   (reset_password_check_cases _ "###" "good-token").1 rfl,
   (reset_password_check_cases _ "MQ" "bad-token").2.1 1 rfl (by decide)⟩

/-- The ValidationError message for mismatched password confirmation. -/
def passwordMismatchMsg : String := "The two password fields didn't match."

/-- Environment of `CoreUserResetPasswordConfirmSerializer`: the check
serializer's environment plus `password_validation.validate_password`
(none means the password passes the configured validators, some e is the
ValidationError it raises). -/
structure ConfirmEnv extends ResetEnv where
  passwordValidation : String → Nat → Option VErr

/-- The writable attrs of `CoreUserResetPasswordConfirmSerializer`. -/
structure ConfirmAttrs where
  uid : String
  token : String
  new_password1 : String
  new_password2 : String

/-- `CoreUserResetPasswordConfirmSerializer.validate` from
`workflow/serializers.py`: run the parent (uid/token) validation, then raise
if the two new passwords differ, then run Django's password validators, and
otherwise return the attrs (with `self.user` resolved). -/
def resetPasswordConfirmValidate (env : ConfirmEnv) (a : ConfirmAttrs) :
    Except VErr (ConfirmAttrs × Nat) :=
  match resetPasswordCheckValidate env.toResetEnv a.uid a.token with
  | Except.error e => Except.error e
  | Except.ok (_, user) =>
      if a.new_password1 ≠ a.new_password2 then
        Except.error (VErr.plain passwordMismatchMsg)
      else
        match env.passwordValidation a.new_password2 user with
        | some e => Except.error e
        | none => Except.ok (a, user)

/-- The DRF flow around the confirm serializer: `save()` (which calls
`set_password(new_password1)` followed by `user.save()`) runs only when
`validate` raised nothing.  The password store maps user ids to passwords;
on a ValidationError it is returned unchanged. -/
def resetPasswordConfirmFlow (env : ConfirmEnv) (a : ConfirmAttrs)
    (passwords : Nat → String) : Except VErr Unit × (Nat → String) :=
  match resetPasswordConfirmValidate env a with
  | Except.error e => (Except.error e, passwords)
  | Except.ok (va, user) =>
      (Except.ok (), fun u => if u = user then va.new_password1 else passwords u)

/-- C8: whenever the two new passwords differ, the confirm serializer raises
a ValidationError (precisely the mismatch message when the uid/token stage
passed), and the stored passwords are left unchanged. -/
theorem reset_password_confirm_mismatch (env : ConfirmEnv) (a : ConfirmAttrs)
    (passwords : Nat → String) (hne : a.new_password1 ≠ a.new_password2) :
    (∃ e, resetPasswordConfirmValidate env a = Except.error e) ∧
    (∀ r u, resetPasswordCheckValidate env.toResetEnv a.uid a.token =
        Except.ok (r, u) →
      resetPasswordConfirmValidate env a =
        Except.error (VErr.plain passwordMismatchMsg)) ∧
    (resetPasswordConfirmFlow env a passwords).2 = passwords := by
  have hcase : ∀ r u, resetPasswordCheckValidate env.toResetEnv a.uid a.token =
      Except.ok (r, u) →
      resetPasswordConfirmValidate env a =
        Except.error (VErr.plain passwordMismatchMsg) := by
    intro r u h
    rw [resetPasswordConfirmValidate, h]
    simp [hne]
  have herr : ∃ e, resetPasswordConfirmValidate env a = Except.error e := by
    rcases hck : resetPasswordCheckValidate env.toResetEnv a.uid a.token with e | ⟨r, u⟩
    · exact ⟨e, by rw [resetPasswordConfirmValidate, hck]⟩
    · exact ⟨VErr.plain passwordMismatchMsg, hcase r u hck⟩
  refine ⟨herr, hcase, ?_⟩
  obtain ⟨e, he⟩ := herr
  rw [resetPasswordConfirmFlow, he]

/-- C8 witness: with a passing uid/token stage and mismatched passwords, the
serializer raises the mismatch error and the password store is untouched. -/
theorem reset_password_confirm_mismatch_witness :
    (∃ e, resetPasswordConfirmValidate
        ⟨⟨fun _ => some "1", fun _ => some 1, fun _ _ => true⟩, fun _ _ => none⟩
        ⟨"MQ", "tok", "pw-one", "pw-two"⟩ = Except.error e) ∧
    (∀ r u, resetPasswordCheckValidate
        (⟨fun _ => some "1", fun _ => some 1, fun _ _ => true⟩ : ResetEnv)
        "MQ" "tok" = Except.ok (r, u) →
      resetPasswordConfirmValidate
        ⟨⟨fun _ => some "1", fun _ => some 1, fun _ _ => true⟩, fun _ _ => none⟩
        ⟨"MQ", "tok", "pw-one", "pw-two"⟩ =
        Except.error (VErr.plain passwordMismatchMsg)) ∧
    (resetPasswordConfirmFlow
        ⟨⟨fun _ => some "1", fun _ => some 1, fun _ _ => true⟩, fun _ _ => none⟩
        ⟨"MQ", "tok", "pw-one", "pw-two"⟩ (fun _ => "old-password")).2 =
      fun _ => "old-password" :=
  reset_password_confirm_mismatch
    ⟨⟨fun _ => some "1", fun _ => some 1, fun _ _ => true⟩, fun _ _ => none⟩
    ⟨"MQ", "tok", "pw-one", "pw-two"⟩ (fun _ => "old-password") (by decide)

/-- Python truthiness of `invitation_token` in
`validated_data['is_active'] = is_new_org or bool(invitation_token)`:
`None` (absent) and the empty string are falsy. -/
def pyTruthy : Option String → Bool
  | none => false
  | some s => !s.isEmpty

/-- The validated input of `CoreUserWritableSerializer.create` that the
claim depends on: the nested organization name, the requested group ids, the
optional invitation token, and the password. -/
structure CreateInput where
  organization_name : String
  core_groups : List Nat
  invitation_token : Option String
  password : String

/-- The created `CoreUser` as left by `CoreUserWritableSerializer.create`. -/
structure CreatedUser where
  organization : String
  is_active : Bool
  password : String
  core_groups : List Nat

/-- `CoreUserWritableSerializer.create` from `workflow/serializers.py`:
`get_or_create` the organization by name (`is_new_org` is true exactly when
no organization of that name exists), set `is_active` to
`is_new_org or bool(invitation_token)`, create the user with the password,
add the organization's org-level group with `PERMISSIONS_ORG_ADMIN`
(resolved by `orgAdminGroup`) when the organization is new, then add every
requested group. -/
def writableCreate (existingOrgs : List String) (orgAdminGroup : String → Nat)
    (inp : CreateInput) : CreatedUser :=
  let is_new_org := decide (inp.organization_name ∉ existingOrgs)
  ⟨inp.organization_name,
   is_new_org || pyTruthy inp.invitation_token,
   inp.password,
   (if is_new_org then [orgAdminGroup inp.organization_name] else []) ++
     inp.core_groups⟩

/-- C10: the created user is active iff the organization was newly created
or an invitation token was supplied (tokens are non-blank, as the CharField
forbids blank values); the org-admin group is prepended exactly when the
organization is new, so the user ends up in that group iff the organization
is new or the group was itself requested. -/
theorem writable_create_active_admin (existingOrgs : List String)
    (orgAdminGroup : String → Nat) (inp : CreateInput)
    (hblank : inp.invitation_token ≠ some "") :
    ((writableCreate existingOrgs orgAdminGroup inp).is_active = true ↔
      (inp.organization_name ∉ existingOrgs ∨ inp.invitation_token.isSome)) ∧
    (writableCreate existingOrgs orgAdminGroup inp).core_groups =
      (if inp.organization_name ∉ existingOrgs
        then [orgAdminGroup inp.organization_name] else []) ++ inp.core_groups ∧
    (orgAdminGroup inp.organization_name ∈
        (writableCreate existingOrgs orgAdminGroup inp).core_groups ↔
      (inp.organization_name ∉ existingOrgs ∨
        orgAdminGroup inp.organization_name ∈ inp.core_groups)) := by
  have htok : pyTruthy inp.invitation_token = inp.invitation_token.isSome := by
    rcases ht : inp.invitation_token with _ | s
    · rfl
    · have hs : s.isEmpty = false := by
        rw [Bool.eq_false_iff]
        intro hemp
        exact hblank (by rw [ht, (String.isEmpty_iff s).mp hemp])
      simp [pyTruthy, hs]
  refine ⟨?_, ?_, ?_⟩
  · rw [writableCreate]
    simp only [htok, Bool.or_eq_true, decide_eq_true_eq, Option.isSome_iff_exists]
  · rw [writableCreate]
    by_cases hmem : inp.organization_name ∈ existingOrgs <;> simp [hmem]
  · rw [writableCreate]
    by_cases hmem : inp.organization_name ∈ existingOrgs <;> simp [hmem]

/-- C10 witness: creating a user under a fresh organization name with no
token yields an active user whose groups start with the org-admin group; the
theorem instantiated at that input. -/
theorem writable_create_active_admin_witness :
    ((writableCreate ["Existing Org"] (fun _ => 42)
        ⟨"Fresh Org", [7], none, "pw"⟩).is_active = true ↔
      (("Fresh Org" : String) ∉ ["Existing Org"] ∨
        (none : Option String).isSome)) ∧
    (writableCreate ["Existing Org"] (fun _ => 42)
        ⟨"Fresh Org", [7], none, "pw"⟩).core_groups =
      (if ("Fresh Org" : String) ∉ ["Existing Org"] then [42] else []) ++ [7] ∧
    (42 ∈ (writableCreate ["Existing Org"] (fun _ => 42)
        ⟨"Fresh Org", [7], none, "pw"⟩).core_groups ↔
      (("Fresh Org" : String) ∉ ["Existing Org"] ∨ 42 ∈ [7])) :=
  writable_create_active_admin ["Existing Org"] (fun _ => 42)
    ⟨"Fresh Org", [7], none, "pw"⟩ (by decide)

end Buildly
